import Mathlib

/-!
Verification of the neonatal-incubator prototype: shallow embedding of the
validation helpers (`validateSensorRanges`, `validateSensorData`,
`formatAlertMessage`, `chunkArray`, `hashPassword`/`verifyPassword`), the
Express server's MQTT temperature check, and — modelled from the spec — the
Rule Engine and Alert Ledger of the threshold-monitoring design.

Numeric sensor values are modelled as rationals (ℚ); JavaScript runtime
values carried by a reading are modelled by `JsValue`, which separates
finite numbers from `NaN` and from non-number values.
-/

namespace Incubadora

/-- A JavaScript runtime value as it can appear in a sensor-data object.
`num` is a finite number; `nan` is the numeric value `NaN`; the remaining
constructors cover the non-number types the validators can meet. -/
inductive JsValue where
  | num (q : ℚ)
  | nan
  | str (s : String)
  | boolean (b : Bool)
  | null
  | undef
deriving DecidableEq

/-- `true` exactly when the value passes the source's
`typeof value === 'number' && !isNaN(value)` test. -/
def JsValue.isNum : JsValue → Bool
  | .num _ => true
  | _ => false

/-- The `acceptableRanges` table of `validateSensorRanges`
(src/unnamed/part_000, lines 16–24): system-wide `[min, max]` band per
monitored parameter, `none` for parameters the table does not list. -/
def acceptableRanges : String → Option (ℚ × ℚ)
  | "temperatura" => some (30, 45)
  | "humedad" => some (0, 100)
  | "oxigeno" => some (15, 100)
  | "frecuencia_cardiaca" => some (50, 250)
  | "frecuencia_respiratoria" => some (10, 100)
  | "presion_arterial_sistolica" => some (30, 150)
  | "presion_arterial_diastolica" => some (15, 100)
  | _ => none

/-- One violation record pushed by `validateSensorRanges`. -/
structure Violation where
  parameter : String
  value : JsValue
  error : String
  acceptable_range : ℚ × ℚ
deriving DecidableEq

/-- What `validateSensorRanges` pushes for a single `[parameter, value]`
entry: nothing for unmonitored parameters, a type violation for
non-numeric values, a range violation for out-of-band numbers. -/
def rangeCheckEntry (p : String) (v : JsValue) : Option Violation :=
  match acceptableRanges p with
  | none => none
  | some (minVal, maxVal) =>
    match v with
    | .num q =>
      if q < minVal ∨ q > maxVal then
        some ⟨p, v, "Value outside acceptable range", (minVal, maxVal)⟩
      else
        none
    | _ => some ⟨p, v, "Invalid data type, expected number", (minVal, maxVal)⟩

/-- `validateSensorRanges` (src/unnamed/part_000, lines 14–51): iterates
the entries of the sensor-data object in order and collects violations. -/
def validateSensorRanges (sensorData : List (String × JsValue)) : List Violation :=
  sensorData.filterMap fun pv => rangeCheckEntry pv.1 pv.2

/-- The `requiredFields` list of `validateSensorData`
(src/unnamed/part_000, lines 253–261). -/
def requiredFields : List String :=
  ["temperatura", "humedad", "oxigeno", "frecuencia_cardiaca",
   "frecuencia_respiratoria", "presion_arterial_sistolica",
   "presion_arterial_diastolica"]

/-- `validateSensorData` (src/unnamed/part_000, lines 251–289): missing
required fields, then type errors, then — only if no error was recorded so
far — the range violations of `validateSensorRanges`. Returns
`(isValid, errors)`. -/
def validateSensorData (sensorData : List (String × JsValue)) : Bool × List String :=
  let missingErrors :=
    (requiredFields.filter fun f => !sensorData.any fun kv => kv.1 == f).map
      fun f => "Missing required field: " ++ f
  let typeErrors :=
    (sensorData.filter fun kv => requiredFields.contains kv.1 && !kv.2.isNum).map
      fun kv => "Invalid data type for " ++ kv.1 ++ ": expected number"
  let baseErrors := missingErrors ++ typeErrors
  let errors :=
    if baseErrors.isEmpty then
      (validateSensorRanges sensorData).map fun v => v.error ++ " for " ++ v.parameter
    else
      baseErrors
  (errors.isEmpty, errors)

/-! ## The Express server's MQTT message handler -/

/-- One element of the server's in-memory `alerts` array
(src/backend/express-app/server.js, lines 39–45). The JavaScript `Date`
timestamp is modelled by the abstract clock value `now` passed to the
handler. -/
structure ServerAlert where
  type : String
  value : ℚ
  threshold : ℚ
  timestamp : Nat
  device_id : Option String
deriving DecidableEq

/-- One element of the server's in-memory `sensorData` array. Only the
fields the handler itself writes are modelled; the spread payload is kept
as the parsed temperature. -/
structure ServerRecord where
  temperature : ℚ
  topic : String
  timestamp : Nat
deriving DecidableEq

/-- The two in-memory arrays of server.js. -/
structure ServerState where
  sensorData : List ServerRecord
  alerts : List ServerAlert
deriving DecidableEq

/-- `String.prototype.split` on a single separator character, as a list
of character groups. An input with no separator yields one group. -/
def splitOnChar (sep : Char) : List Char → List (List Char)
  | [] => [[]]
  | c :: cs =>
    if c = sep then
      [] :: splitOnChar sep cs
    else
      match splitOnChar sep cs with
      | [] => [[c]]
      | g :: gs => (c :: g) :: gs

/-- `topic.split('/')` from the handler. -/
def jsSplitSlash (s : String) : List String :=
  (splitOnChar (Char.ofNat 47) s.data).map String.mk

/-- The MQTT `message` handler (src/backend/express-app/server.js,
lines 25–52) on a payload whose `temperature` field parsed to the number
`temperature`: the sample is appended to `sensorData`, and an alert is
appended to `alerts` exactly when `temperature > 37.5 || temperature < 36.0`,
with `threshold` the bound that was crossed and `device_id` the second
`/`-separated component of the topic. -/
def handleMqttMessage (topic : String) (temperature : ℚ) (now : Nat)
    (st : ServerState) : ServerState :=
  let st1 : ServerState :=
    { st with sensorData := st.sensorData ++ [⟨temperature, topic, now⟩] }
  if temperature > 37.5 ∨ temperature < 36.0 then
    { st1 with
      alerts := st1.alerts ++
        [⟨"temperature", temperature,
          if temperature > 37.5 then 37.5 else 36.0, now,
          (jsSplitSlash topic)[1]?⟩] }
  else
    st1

/-! ## Alert-message formatting -/

/-- The `status` computed inside `formatAlertMessage`
(src/unnamed/part_000, lines 191–198): `"BAJO"` when the value is below
the lower bound, `"ALTO"` otherwise. -/
def alertStatus (value minVal : ℚ) : String :=
  if value < minVal then "BAJO" else "ALTO"

/-- The `deviation` computed inside `formatAlertMessage`
(src/unnamed/part_000, lines 191–198): distance below the lower bound, or
the value minus the upper bound. -/
def alertDeviation (value minVal maxVal : ℚ) : ℚ :=
  if value < minVal then minVal - value else value - maxVal

/-- `String.prototype.toUpperCase` on the identifiers the source passes:
ASCII upper-casing, character by character. -/
def toUpperStr (s : String) : String :=
  String.mk (s.data.map Char.toUpper)

/-- Two-digit, zero-padded rendering of a natural number below 100. -/
def twoDigits (n : Nat) : String :=
  if n < 10 then "0" ++ toString n else toString n

/-- `Number.prototype.toFixed(2)` on a non-negative rational: round
`q * 100` to the nearest integer (ties upward) and print with exactly two
fractional digits. -/
def toFixed2OfNonneg (q : ℚ) : String :=
  let n : Nat := (⌊q * 100 + 1 / 2⌋).toNat
  toString (n / 100) ++ "." ++ twoDigits (n % 100)

/-- JavaScript's `toFixed(2)`: negative inputs print a leading minus sign
and format the negation. -/
def jsToFixed2 (q : ℚ) : String :=
  if q < 0 then "-" ++ toFixed2OfNonneg (-q) else toFixed2OfNonneg q

/-- Fractional digits of a rational in `[0, 1)`, at most `fuel` of them,
stopping when the remainder is zero. -/
def fracDigits : ℚ → Nat → String
  | _, 0 => ""
  | q, fuel + 1 =>
    if q = 0 then ""
    else toString (⌊q * 10⌋).toNat ++ fracDigits (q * 10 - ⌊q * 10⌋) fuel

/-- Integer part and fractional digits of a non-negative rational. -/
def jsNumToStringOfNonneg (q : ℚ) : String :=
  toString (⌊q⌋.toNat) ++
    (if q - ⌊q⌋ = 0 then "" else "." ++ fracDigits (q - ⌊q⌋) 30)

/-- JavaScript number-to-string conversion on rationals with a finite
decimal expansion (the only ones the source produces): sign, integer part,
and the exact fractional digits when they are non-zero. -/
def jsNumToString (q : ℚ) : String :=
  if q < 0 then "-" ++ jsNumToStringOfNonneg (-q) else jsNumToStringOfNonneg q

/-- `formatAlertMessage` (src/unnamed/part_000, lines 188–203): the
template-literal composition of the alert message. -/
def formatAlertMessage (alertLevel parameter : String) (value : ℚ)
    (normalRange : ℚ × ℚ) : String :=
  "ALERTA " ++ alertLevel ++ ": " ++ toUpperStr parameter ++ " " ++
    alertStatus value normalRange.1 ++ " - " ++
    "Valor: " ++ jsToFixed2 value ++ ", Rango normal: " ++
    jsNumToString normalRange.1 ++ "-" ++ jsNumToString normalRange.2 ++ ", " ++
    "Desviación: " ++ jsToFixed2 (alertDeviation value normalRange.1 normalRange.2)

/-! ## chunkArray -/

/-- `chunkArray` (src/unnamed/part_000, lines 211–217) as a list function:
successive `slice(i, i + chunkSize)` pieces. For `chunkSize ≥ 1` this
agrees with the source loop step by step; the source loop does not
terminate for `chunkSize ≤ 0` on a non-empty array, so only positive
chunk sizes are meaningful. -/
def chunkArray {α : Type} : List α → Nat → List (List α)
  | [], _ => []
  | a :: as, chunkSize =>
    (a :: as).take chunkSize :: chunkArray (as.drop (chunkSize - 1)) chunkSize
termination_by l _ => l.length
decreasing_by
  simp only [List.length_cons, List.length_drop]
  omega

/-! ## Password hashing -/

/-- Result object of `hashPassword`. -/
structure HashResult where
  hash : String
  salt : String
deriving DecidableEq

/-- `hashPassword` (src/unnamed/part_000, lines 76–84). `pbkdf2` stands
for the external `crypto.pbkdf2Sync(·, ·, 100000, 64, 'sha256').toString('hex')`
pipeline, a deterministic function of password and salt; `genSalt` is the
random salt `crypto.randomBytes(16).toString('hex')` would produce on this
call. The source's `if (!salt)` treats both `null` (modelled `none`) and
the empty string as absent and replaces them by the generated salt. -/
def hashPassword (pbkdf2 : String → String → String) (genSalt : String)
    (password : String) (salt : Option String) : HashResult :=
  let saltUsed := if salt = none ∨ salt = some "" then genSalt else salt.getD ""
  ⟨pbkdf2 password saltUsed, saltUsed⟩

/-- `verifyPassword` (src/unnamed/part_000, lines 93–96): recompute the
hash with the supplied salt and compare. -/
def verifyPassword (pbkdf2 : String → String → String)
    (password hashedPassword salt : String) : Bool :=
  pbkdf2 password salt == hashedPassword

/-! ## Rule Engine (spec §4.2)

The Rule Engine of the monitoring design has no implementation under the
repository's source files: the server only runs the inline temperature
comparison and the helpers validate raw ranges. The definitions below are
therefore modelled from the spec. -/

/-- The four-tier severity of the `alertas.severidad` CHECK constraint
(src/database/init.sql, line 92). -/
inductive Severity where
  | baja
  | media
  | alta
  | critica
deriving DecidableEq

/-- A `umbrales_paciente` row (src/database/init.sql, lines 104–116):
per-(patient, parameter) normal and critical bands plus the active flag. -/
structure Threshold where
  valor_min : ℚ
  valor_max : ℚ
  valor_critico_min : ℚ
  valor_critico_max : ℚ
  activo : Bool
deriving DecidableEq

/-- Modelled from the spec: the resolved threshold of spec §4.2 step 2 — a
normal band plus, for patient-specific thresholds, the critical band;
the system default band has no critical band. -/
structure ResolvedBand where
  mn : ℚ
  mx : ℚ
  crit : Option (ℚ × ℚ)
deriving DecidableEq

/-- Modelled from the spec: threshold resolution (spec §4.1/§4.2) —
patient-specific threshold if present and active, else the system default
band, which is the source's `acceptableRanges` table. -/
def resolveBand (configured : Option Threshold) (p : String) : Option ResolvedBand :=
  match configured with
  | some t =>
    if t.activo then
      some ⟨t.valor_min, t.valor_max, some (t.valor_critico_min, t.valor_critico_max)⟩
    else
      (acceptableRanges p).map fun b => ⟨b.1, b.2, none⟩
  | none => (acceptableRanges p).map fun b => ⟨b.1, b.2, none⟩

/-- Modelled from the spec: a candidate alert emitted by the Rule Engine
(spec §4.2, glossary). -/
structure CandidateAlert where
  parametro : String
  tipo : String
  severidad : Severity
  valor : JsValue
deriving DecidableEq

/-- Modelled from the spec: evaluation of one parameter of a reading
(spec §4.2). Non-numeric values yield a data-quality candidate of severity
`baja` without a range comparison; numeric values are compared against the
critical band first, then the normal band; a value inside the normal band
yields nothing. With no critical band configured a normal-band breach is
the simplified two-tier `alta` (spec §8). -/
def evaluateParam (band? : Option ResolvedBand) (p : String) (v : JsValue) :
    Option CandidateAlert :=
  match v with
  | .num q =>
    match band? with
    | none => none
    | some b =>
      let direction := if q < b.mn then "_baja" else "_alta"
      match b.crit with
      | some (cmn, cmx) =>
        if q < cmn ∨ q > cmx then
          some ⟨p, p ++ direction, .critica, v⟩
        else if q < b.mn ∨ q > b.mx then
          some ⟨p, p ++ direction, .media, v⟩
        else
          none
      | none =>
        if q < b.mn ∨ q > b.mx then
          some ⟨p, p ++ direction, .alta, v⟩
        else
          none
  | _ => some ⟨p, "data-quality", .baja, v⟩

/-- Modelled from the spec: `evaluate(reading) -> sequence of CandidateAlert`
(spec §6) — per-parameter evaluation of the reading against the thresholds
resolved from the store. -/
def evaluate (store : String → Option Threshold)
    (reading : List (String × JsValue)) : List CandidateAlert :=
  reading.filterMap fun pv => evaluateParam (resolveBand (store pv.1) pv.1) pv.1 pv.2

/-! ## Alert Ledger (spec §4.3)

The Alert Ledger also has no implementation under the repository's source
files — the server pushes alert objects into a bare array and the SQL
schema only declares the `alertas` table and its state CHECK constraint —
so its operations are modelled from the spec. -/

/-- The `alertas.estado` CHECK constraint (src/database/init.sql, line 96). -/
inductive AlertState where
  | activa
  | reconocida
  | resuelta
deriving DecidableEq

/-- Modelled from the spec: a persisted alert row (spec §3, mirroring the
`alertas` columns of src/database/init.sql lines 87–101). -/
structure LedgerAlert where
  id : Nat
  incubadora : String
  paciente : Option String
  tipo : String
  severidad : Severity
  valor : ℚ
  ts : Nat
  estado : AlertState
  ackUser : Option String
  ackTime : Option Nat
  resTime : Option Nat
deriving DecidableEq

/-- Modelled from the spec: an unpersisted candidate submitted to the
ledger (spec §4.3, glossary). -/
structure Candidate where
  incubadora : String
  paciente : Option String
  tipo : String
  severidad : Severity
  valor : ℚ
  ts : Nat
deriving DecidableEq

/-- The de-duplication key comparison of spec §4.3:
(incubator, patient, alert type). -/
def keyMatches (c : Candidate) (a : LedgerAlert) : Bool :=
  a.incubadora == c.incubadora && a.paciente == c.paciente && a.tipo == c.tipo

/-- An alert that blocks creation of a duplicate: same key and still
`activa`. -/
def isActiveFor (c : Candidate) (a : LedgerAlert) : Bool :=
  a.estado == AlertState.activa && keyMatches c a

/-- The in-place idempotent merge of spec §4.3: update the triggering
value, severity and timestamp of a matching active alert, leave every
other alert unchanged. -/
def mergeInto (c : Candidate) (a : LedgerAlert) : LedgerAlert :=
  if isActiveFor c a then
    { a with valor := c.valor, severidad := c.severidad, ts := c.ts }
  else a

/-- A freshly created alert row in state `activa` for a candidate. -/
def freshAlert (nextId : Nat) (c : Candidate) : LedgerAlert :=
  ⟨nextId, c.incubadora, c.paciente, c.tipo, c.severidad, c.valor, c.ts,
   .activa, none, none, none⟩

/-- Modelled from the spec: `submit(candidate) -> Alert` (spec §4.3) — if
an alert in state `activa` with the same key exists, update its triggering
value, severity and timestamp in place (idempotent merge); otherwise
append a fresh alert in state `activa`. Returns the new ledger and the
next fresh id. -/
def submit (ledger : List LedgerAlert) (nextId : Nat) (c : Candidate) :
    List LedgerAlert × Nat :=
  if ledger.any (isActiveFor c) then
    (ledger.map (mergeInto c), nextId)
  else
    (ledger ++ [freshAlert nextId c], nextId + 1)

/-- The error kinds of the ledger's lifecycle operations (spec §7). -/
inductive LedgerError where
  | NotFound
  | InvalidTransition
deriving DecidableEq

/-- Modelled from the spec: the acknowledge edge of the per-alert state
machine (spec §4.3) — legal only from `activa`. -/
def ackState : AlertState → Option AlertState
  | .activa => some .reconocida
  | _ => none

/-- Modelled from the spec: the resolve edge of the per-alert state
machine (spec §4.3) — legal from `activa` and `reconocida`, never from
the terminal `resuelta`. -/
def resolveState : AlertState → Option AlertState
  | .activa => some .resuelta
  | .reconocida => some .resuelta
  | .resuelta => none

/-- Modelled from the spec: `acknowledge(alertId, userId)` (spec §4.3) —
`NotFound` for an unknown id, `InvalidTransition` unless the alert is
`activa`, otherwise records user and timestamp and moves to `reconocida`. -/
def acknowledge (ledger : List LedgerAlert) (id : Nat) (user : String)
    (now : Nat) : Except LedgerError (List LedgerAlert) :=
  match ledger.find? fun a => a.id == id with
  | none => .error .NotFound
  | some a =>
    match ackState a.estado with
    | none => .error .InvalidTransition
    | some s =>
      .ok (ledger.map fun b =>
        if b.id == id then
          { b with estado := s, ackUser := some user, ackTime := some now }
        else b)

/-- Modelled from the spec: `resolve(alertId)` (spec §4.3) — `NotFound`
for an unknown id, `InvalidTransition` from the terminal `resuelta`,
otherwise records the resolution timestamp and moves to `resuelta`. -/
def resolve (ledger : List LedgerAlert) (id : Nat) (now : Nat) :
    Except LedgerError (List LedgerAlert) :=
  match ledger.find? fun a => a.id == id with
  | none => .error .NotFound
  | some a =>
    match resolveState a.estado with
    | none => .error .InvalidTransition
    | some s =>
      .ok (ledger.map fun b =>
        if b.id == id then { b with estado := s, resTime := some now } else b)

/-- Number of alerts in state `activa` for a candidate's key. -/
def countActiveKey (c : Candidate) (ledger : List LedgerAlert) : Nat :=
  (ledger.filter (isActiveFor c)).length

/-- Number of alerts (in any state) for a candidate's key. -/
def countKey (c : Candidate) (ledger : List LedgerAlert) : Nat :=
  (ledger.filter (keyMatches c)).length

/-- A reading with one malformed (string-valued) temperature and an
out-of-range heart rate, all seven required fields present. -/
def c4Data : List (String × JsValue) :=
  [("temperatura", .str "hot"), ("humedad", .num 50), ("oxigeno", .num 95),
   ("frecuencia_cardiaca", .num 300), ("frecuencia_respiratoria", .num 40),
   ("presion_arterial_sistolica", .num 80), ("presion_arterial_diastolica", .num 50)]

/-- A concrete candidate for the C2 witness. -/
def sampleCandidate : Candidate :=
  ⟨"INC-001", some "p1", "temperatura_alta", Severity.alta, 39, 5⟩

/-! ## Theorems -/

/-! ### Helper lemmas -/

lemma jsToFixed2_of_382 : jsToFixed2 (38.2 : ℚ) = "38.20" := by
  have h1 : ¬ (38.2 : ℚ) < 0 := by norm_num
  have h2 : (⌊(38.2 : ℚ) * 100 + 1 / 2⌋) = 3820 := by norm_num
  rw [jsToFixed2, if_neg h1, toFixed2OfNonneg, h2]
  rfl

lemma jsToFixed2_of_07 : jsToFixed2 (0.7 : ℚ) = "0.70" := by
  have h1 : ¬ (0.7 : ℚ) < 0 := by norm_num
  have h2 : (⌊(0.7 : ℚ) * 100 + 1 / 2⌋) = 70 := by norm_num
  rw [jsToFixed2, if_neg h1, toFixed2OfNonneg, h2]
  rfl

lemma jsNumToString_of_36 : jsNumToString (36 : ℚ) = "36" := by
  have h1 : ¬ (36 : ℚ) < 0 := by norm_num
  have h2 : (⌊(36 : ℚ)⌋) = 36 := by norm_num
  rw [jsNumToString, if_neg h1, jsNumToStringOfNonneg, h2]
  norm_num
  rfl

lemma jsNumToString_of_375 : jsNumToString (37.5 : ℚ) = "37.5" := by
  have h1 : ¬ (37.5 : ℚ) < 0 := by norm_num
  have h2 : (⌊(37.5 : ℚ)⌋) = 37 := by norm_num
  have h3 : (37.5 : ℚ) - 37 = 1/2 := by norm_num
  have h4 : fracDigits (1/2) 30 = "5" := by
    rw [fracDigits]
    have h5 : ¬ ((1:ℚ)/2 = 0) := by norm_num
    have h6 : (⌊(1:ℚ)/2 * 10⌋) = 5 := by norm_num
    rw [if_neg h5, h6]
    have h7 : (1:ℚ)/2 * 10 - (5:ℤ) = 0 := by norm_num
    rw [h7, fracDigits]
    simp
    rfl
  rw [jsNumToString, if_neg h1, jsNumToStringOfNonneg, h2]
  push_cast
  rw [h3]
  have h8 : ¬ ((1:ℚ)/2 = 0) := by norm_num
  rw [if_neg h8, h4]
  rfl

/-- The key check ignores the fields the merge rewrites. -/
lemma keyMatches_mergeInto (c c' : Candidate) (a : LedgerAlert) :
    keyMatches c' (mergeInto c a) = keyMatches c' a := by
  rw [mergeInto]
  by_cases h : isActiveFor c a = true
  · rw [if_pos h]; rfl
  · rw [if_neg h]

/-- The active-key check ignores the fields the merge rewrites. -/
lemma isActiveFor_mergeInto (c c' : Candidate) (a : LedgerAlert) :
    isActiveFor c' (mergeInto c a) = isActiveFor c' a := by
  rw [mergeInto]
  by_cases h : isActiveFor c a = true
  · rw [if_pos h]; rfl
  · rw [if_neg h]

/-- Two candidates with equal key fields induce the same active-key
check. -/
lemma isActiveFor_congr (c₁ c₂ : Candidate)
    (hinc : c₁.incubadora = c₂.incubadora) (hpac : c₁.paciente = c₂.paciente)
    (htipo : c₁.tipo = c₂.tipo) : isActiveFor c₁ = isActiveFor c₂ := by
  funext a
  rw [isActiveFor, isActiveFor, keyMatches, keyMatches, hinc, hpac, htipo]

/-- A fresh alert for a candidate matches the candidate's key. -/
lemma keyMatches_freshAlert (c : Candidate) (n : Nat) :
    keyMatches c (freshAlert n c) = true := by
  simp [keyMatches, freshAlert]

/-- A fresh alert for a candidate is active for the candidate's key. -/
lemma isActiveFor_freshAlert (c : Candidate) (n : Nat) :
    isActiveFor c (freshAlert n c) = true := by
  simp [isActiveFor, keyMatches, freshAlert]

/-- Mapping a predicate-preserving function over a ledger does not change
the filtered count. -/
lemma filter_map_length (p : LedgerAlert → Bool) (f : LedgerAlert → LedgerAlert)
    (hf : ∀ a, p (f a) = p a) :
    ∀ l : List LedgerAlert, ((l.map f).filter p).length = (l.filter p).length := by
  intro l
  induction l with
  | nil => rfl
  | cons a l ih =>
    rw [List.map_cons, List.filter_cons, List.filter_cons, hf a]
    by_cases h : p a = true
    · rw [if_pos h, if_pos h, List.length_cons, List.length_cons, ih]
    · rw [if_neg h, if_neg h]; exact ih

/-- `chunkArray` produces the empty list only on the empty list. -/
lemma chunkArray_eq_nil_iff {α : Type} (l : List α) (k : Nat) :
    chunkArray l k = [] ↔ l = [] := by
  cases l <;> simp [chunkArray]

/-- Concatenating the chunks gives back the original list (fuel-indexed
induction on the list length). -/
lemma chunkArray_join_aux {α : Type} :
    ∀ (n : Nat) (l : List α) (k : Nat), l.length ≤ n → 0 < k →
      (chunkArray l k).flatten = l := by
  intro n
  induction n with
  | zero =>
    intro l k hl _
    have hnil : l = [] := List.eq_nil_of_length_eq_zero (Nat.le_zero.mp hl)
    subst hnil
    simp [chunkArray]
  | succ n ih =>
    intro l k hl hk
    cases l with
    | nil => simp [chunkArray]
    | cons a as =>
      simp only [List.length_cons] at hl
      rw [chunkArray]
      rw [List.flatten_cons]
      rw [ih (as.drop (k - 1)) k (by simp only [List.length_drop]; omega) hk]
      obtain ⟨k', rfl⟩ : ∃ k', k = k' + 1 := ⟨k - 1, by omega⟩
      simp only [List.take_succ_cons, Nat.add_sub_cancel, List.cons_append,
        List.cons.injEq, true_and]
      exact List.take_append_drop k' as

/-- Every chunk except possibly the last has exactly `k` elements
(fuel-indexed induction on the list length). -/
lemma chunkArray_dropLast_aux {α : Type} :
    ∀ (n : Nat) (l : List α) (k : Nat), l.length ≤ n → 0 < k →
      ∀ c ∈ (chunkArray l k).dropLast, c.length = k := by
  intro n
  induction n with
  | zero =>
    intro l k hl _ c hc
    have hnil : l = [] := List.eq_nil_of_length_eq_zero (Nat.le_zero.mp hl)
    subst hnil
    simp [chunkArray] at hc
  | succ n ih =>
    intro l k hl hk c hc
    cases l with
    | nil => simp [chunkArray] at hc
    | cons a as =>
      simp only [List.length_cons] at hl
      rw [chunkArray] at hc
      cases hrec : chunkArray (as.drop (k - 1)) k with
      | nil =>
        rw [hrec] at hc
        simp at hc
      | cons y ys =>
        rw [hrec, List.dropLast_cons₂] at hc
        have hne : ¬ as.length ≤ k - 1 := by
          intro hle
          have : as.drop (k - 1) = [] := List.drop_eq_nil_of_le hle
          rw [this] at hrec
          simp [chunkArray] at hrec
        rcases List.mem_cons.mp hc with hhead | htail
        · subst hhead
          simp only [List.length_take, List.length_cons]
          omega
        · refine ih (as.drop (k - 1)) k (by simp only [List.length_drop]; omega) hk c ?_
          rw [hrec]
          exact htail

/-- C7: when no patient-specific threshold is configured, the resolved
system default band per parameter is exactly the `acceptableRanges` table:
temperature 30–45 °C, humidity 0–100 %, oxygen saturation 15–100 %, heart
rate 50–250 bpm, respiratory rate 10–100 rpm, systolic blood pressure
30–150 mmHg, diastolic blood pressure 15–100 mmHg. -/
theorem c7_default_bands :
    (acceptableRanges "temperatura" = some (30, 45) ∧
     acceptableRanges "humedad" = some (0, 100) ∧
     acceptableRanges "oxigeno" = some (15, 100) ∧
     acceptableRanges "frecuencia_cardiaca" = some (50, 250) ∧
     acceptableRanges "frecuencia_respiratoria" = some (10, 100) ∧
     acceptableRanges "presion_arterial_sistolica" = some (30, 150) ∧
     acceptableRanges "presion_arterial_diastolica" = some (15, 100)) ∧
    (resolveBand none "temperatura" = some ⟨30, 45, none⟩ ∧
     resolveBand none "humedad" = some ⟨0, 100, none⟩ ∧
     resolveBand none "oxigeno" = some ⟨15, 100, none⟩ ∧
     resolveBand none "frecuencia_cardiaca" = some ⟨50, 250, none⟩ ∧
     resolveBand none "frecuencia_respiratoria" = some ⟨10, 100, none⟩ ∧
     resolveBand none "presion_arterial_sistolica" = some ⟨30, 150, none⟩ ∧
     resolveBand none "presion_arterial_diastolica" = some ⟨15, 100, none⟩) := by
  decide

/-- C6: for a value outside the normal band `[min, max]`, the direction is
`BAJO` exactly when the lower bound was crossed and `ALTO` exactly when
the upper bound was crossed, and the deviation is the distance from the
violated bound, never negative. -/
theorem c6_direction_and_deviation (value minVal maxVal : ℚ)
    (hband : minVal ≤ maxVal) (hout : value < minVal ∨ maxVal < value) :
    (alertStatus value minVal = "BAJO" ↔ value < minVal) ∧
    (alertStatus value minVal = "ALTO" ↔ maxVal < value) ∧
    (value < minVal → alertDeviation value minVal maxVal = minVal - value) ∧
    (maxVal < value → alertDeviation value minVal maxVal = value - maxVal) ∧
    0 ≤ alertDeviation value minVal maxVal := by
  have hBA : ("BAJO" : String) ≠ "ALTO" := by decide
  have hAB : ("ALTO" : String) ≠ "BAJO" := by decide
  rcases hout with h | h
  · have hna : ¬ maxVal < value := by linarith
    refine ⟨?_, ?_, ?_, ?_, ?_⟩
    · rw [alertStatus, if_pos h]; exact ⟨fun _ => h, fun _ => rfl⟩
    · rw [alertStatus, if_pos h]
      exact ⟨fun hc => absurd hc hBA, fun hc => absurd hc hna⟩
    · intro _; rw [alertDeviation, if_pos h]
    · intro hc; exact absurd hc hna
    · rw [alertDeviation, if_pos h]; linarith
  · have hn : ¬ value < minVal := by linarith
    refine ⟨?_, ?_, ?_, ?_, ?_⟩
    · rw [alertStatus, if_neg hn]
      exact ⟨fun hc => absurd hc hAB, fun hc => absurd hc hn⟩
    · rw [alertStatus, if_neg hn]; exact ⟨fun _ => h, fun _ => rfl⟩
    · intro hc; exact absurd hc hn
    · intro _; rw [alertDeviation, if_neg hn]
    · rw [alertDeviation, if_neg hn]; linarith

/-- C6 witness: the theorem applied to temperature 50 against the band
[30, 45]. -/
theorem c6_direction_and_deviation_witness :
    (30 : ℚ) ≤ 45 ∧ ((50 : ℚ) < 30 ∨ (45 : ℚ) < 50) ∧
    ((alertStatus 50 30 = "BAJO" ↔ (50 : ℚ) < 30) ∧
     (alertStatus 50 30 = "ALTO" ↔ (45 : ℚ) < 50) ∧
     ((50 : ℚ) < 30 → alertDeviation 50 30 45 = 30 - 50) ∧
     ((45 : ℚ) < 50 → alertDeviation 50 30 45 = 50 - 45) ∧
     0 ≤ alertDeviation 50 30 45) :=
  ⟨by norm_num, by norm_num,
   c6_direction_and_deviation 50 30 45 (by norm_num) (Or.inr (by norm_num))⟩

/-- C8: the composed alert message is exactly the template
`"ALERTA <severidad>: <PARAMETRO> <BAJO|ALTO> - Valor: <value, 2 decimals>,
Rango normal: <min>-<max>, Desviación: <deviation, 2 decimals>"` with the
parameter upper-cased; instantiated at the spec's end-to-end scenario
(temperature 38.2 against band [36, 37.5]). -/
theorem c8_message_format :
    (∀ (alertLevel parameter : String) (value minVal maxVal : ℚ),
       formatAlertMessage alertLevel parameter value (minVal, maxVal) =
         "ALERTA " ++ alertLevel ++ ": " ++ toUpperStr parameter ++ " " ++
           (if value < minVal then "BAJO" else "ALTO") ++ " - " ++
           "Valor: " ++ jsToFixed2 value ++ ", Rango normal: " ++
           jsNumToString minVal ++ "-" ++ jsNumToString maxVal ++ ", " ++
           "Desviación: " ++
           jsToFixed2 (if value < minVal then minVal - value else value - maxVal)) ∧
    formatAlertMessage "media" "temperatura_corporal" 38.2 (36, 37.5) =
      "ALERTA media: TEMPERATURA_CORPORAL ALTO - Valor: 38.20, " ++
        "Rango normal: 36-37.5, Desviación: 0.70" := by
  have hgen : ∀ (alertLevel parameter : String) (value minVal maxVal : ℚ),
      formatAlertMessage alertLevel parameter value (minVal, maxVal) =
        "ALERTA " ++ alertLevel ++ ": " ++ toUpperStr parameter ++ " " ++
          (if value < minVal then "BAJO" else "ALTO") ++ " - " ++
          "Valor: " ++ jsToFixed2 value ++ ", Rango normal: " ++
          jsNumToString minVal ++ "-" ++ jsNumToString maxVal ++ ", " ++
          "Desviación: " ++
          jsToFixed2 (if value < minVal then minVal - value else value - maxVal) := by
    intro alertLevel parameter value minVal maxVal
    rw [formatAlertMessage, alertStatus, alertDeviation]
  refine ⟨hgen, ?_⟩
  rw [hgen]
  have hlt : ¬ (38.2 : ℚ) < 36 := by norm_num
  rw [if_neg hlt, if_neg hlt]
  have hdev : (38.2 : ℚ) - 37.5 = 0.7 := by norm_num
  rw [hdev, jsToFixed2_of_382, jsToFixed2_of_07, jsNumToString_of_36,
    jsNumToString_of_375]
  decide

/-- C5: a parameter carrying a non-numeric value (wrong type or NaN)
produces exactly one data-quality finding — severity `baja` for the Rule
Engine, the type-error violation for `validateSensorRanges` — with no
range comparison for it, and the rest of the reading is still evaluated. -/
theorem c5_nonnumeric_data_quality (store : String → Option Threshold)
    (p : String) (v : JsValue) (rest : List (String × JsValue)) (mn mx : ℚ)
    (hv : v.isNum = false) (hp : acceptableRanges p = some (mn, mx)) :
    evaluate store ((p, v) :: rest) =
        ⟨p, "data-quality", Severity.baja, v⟩ :: evaluate store rest ∧
    validateSensorRanges ((p, v) :: rest) =
        ⟨p, v, "Invalid data type, expected number", (mn, mx)⟩ ::
          validateSensorRanges rest := by
  constructor
  · cases v with
    | num q => simp [JsValue.isNum] at hv
    | nan => simp [evaluate, List.filterMap_cons, evaluateParam]
    | str s => simp [evaluate, List.filterMap_cons, evaluateParam]
    | boolean b => simp [evaluate, List.filterMap_cons, evaluateParam]
    | null => simp [evaluate, List.filterMap_cons, evaluateParam]
    | undef => simp [evaluate, List.filterMap_cons, evaluateParam]
  · have hentry : rangeCheckEntry p v =
        some ⟨p, v, "Invalid data type, expected number", (mn, mx)⟩ := by
      rw [rangeCheckEntry, hp]
      cases v with
      | num q => simp [JsValue.isNum] at hv
      | nan => rfl
      | str s => rfl
      | boolean b => rfl
      | null => rfl
      | undef => rfl
    simp [validateSensorRanges, List.filterMap_cons, hentry]

/-- C5 witness: a string-valued temperature entry followed by an in-range
heart-rate entry. -/
theorem c5_nonnumeric_data_quality_witness :
    (JsValue.str "x").isNum = false ∧
    acceptableRanges "temperatura" = some (30, 45) ∧
    (evaluate (fun _ => none) [("temperatura", .str "x")] =
        [⟨"temperatura", "data-quality", Severity.baja, .str "x"⟩] ∧
     validateSensorRanges [("temperatura", .str "x")] =
        [⟨"temperatura", .str "x", "Invalid data type, expected number", (30, 45)⟩]) :=
  ⟨by decide, by decide,
   c5_nonnumeric_data_quality (fun _ => none) "temperatura" (.str "x") [] 30 45
     (by decide) (by decide)⟩

/-- C1: a parameter value strictly inside the resolved normal band emits
no candidate alert (Rule Engine), the server's MQTT handler appends no
alert for a temperature strictly between 36.0 and 37.5, and
`validateSensorRanges` reports no violation for an in-range numeric
value. -/
theorem c1_inside_band_no_alert :
    (∀ (store : String → Option Threshold) (p : String) (q : ℚ)
       (b : ResolvedBand) (rest : List (String × JsValue)),
       resolveBand (store p) p = some b →
       (∀ cmn cmx, b.crit = some (cmn, cmx) → cmn ≤ b.mn ∧ b.mx ≤ cmx) →
       b.mn < q → q < b.mx →
       evaluate store ((p, JsValue.num q) :: rest) = evaluate store rest) ∧
    (∀ (topic : String) (t : ℚ) (now : Nat) (st : ServerState),
       36 < t → t < 37.5 →
       (handleMqttMessage topic t now st).alerts = st.alerts) ∧
    (∀ (rest : List (String × JsValue)) (p : String) (q mn mx : ℚ),
       acceptableRanges p = some (mn, mx) → mn ≤ q → q ≤ mx →
       validateSensorRanges ((p, JsValue.num q) :: rest) =
         validateSensorRanges rest) := by
  refine ⟨?_, ?_, ?_⟩
  · intro store p q b rest hres hcrit h1 h2
    have hnone : evaluateParam (resolveBand (store p) p) p (JsValue.num q) = none := by
      rw [hres]
      obtain ⟨mn, mx, crit⟩ := b
      cases crit with
      | none =>
        simp only [evaluateParam]
        rw [if_neg]
        push_neg
        exact ⟨le_of_lt h1, le_of_lt h2⟩
      | some cp =>
        obtain ⟨cmn, cmx⟩ := cp
        obtain ⟨hc1, hc2⟩ := hcrit cmn cmx rfl
        simp only [evaluateParam]
        rw [if_neg, if_neg]
        · push_neg
          exact ⟨le_of_lt h1, le_of_lt h2⟩
        · push_neg
          constructor
          · linarith
          · linarith
    simp [evaluate, List.filterMap_cons, hnone]
  · intro topic t now st h1 h2
    rw [handleMqttMessage]
    rw [if_neg]
    push_neg
    constructor
    · linarith
    · linarith
  · intro rest p q mn mx hp h1 h2
    have hentry : rangeCheckEntry p (JsValue.num q) = none := by
      rw [rangeCheckEntry, hp]
      simp only []
      rw [if_neg]
      push_neg
      exact ⟨h1, h2⟩
    simp [validateSensorRanges, List.filterMap_cons, hentry]

/-- C1 witness: temperature 37 is strictly inside the default band
[30, 45], strictly between the server's 36.0/37.5 thresholds, and in
range for `validateSensorRanges`. -/
theorem c1_inside_band_no_alert_witness :
    (resolveBand ((fun _ => none) "temperatura") "temperatura" =
        some ⟨30, 45, none⟩ ∧
     evaluate (fun _ => none) [("temperatura", JsValue.num 37)] =
        evaluate (fun _ => none) []) ∧
    ((36 : ℚ) < 37 ∧ (37 : ℚ) < 37.5 ∧
     (handleMqttMessage "incubadora/inc1/sensors" 37 0 ⟨[], []⟩).alerts = []) ∧
    (validateSensorRanges [("temperatura", JsValue.num 37)] =
        validateSensorRanges []) :=
  ⟨⟨by decide,
    c1_inside_band_no_alert.1 (fun _ => none) "temperatura" 37 ⟨30, 45, none⟩ []
      (by decide) (by intro cmn cmx h; cases h) (by norm_num) (by norm_num)⟩,
   ⟨by norm_num, by norm_num,
    c1_inside_band_no_alert.2.1 "incubadora/inc1/sensors" 37 0 ⟨[], []⟩
      (by norm_num) (by norm_num)⟩,
   c1_inside_band_no_alert.2.2 [] "temperatura" 37 30 45 (by decide)
     (by norm_num) (by norm_num)⟩

/-- C4 counterexample: on a reading whose temperature is malformed and
whose heart rate 300 is outside its acceptable range [50, 250],
`validateSensorData` reports only the type error — the heart-rate range
violation, although derivable (third conjunct), is not reported. -/
theorem c4_counterexample :
    (validateSensorData c4Data).2 =
        ["Invalid data type for temperatura: expected number"] ∧
    "Value outside acceptable range for frecuencia_cardiaca" ∉
        (validateSensorData c4Data).2 ∧
    Violation.mk "frecuencia_cardiaca" (.num 300) "Value outside acceptable range"
        (50, 250) ∈ validateSensorRanges c4Data := by
  refine ⟨by decide, by decide, by decide⟩

/-- C4 (amended): in `validateSensorRanges` a malformed field never
suppresses the findings of the reading's other fields — every violation
computed for the surrounding entries is still reported;
(`validateSensorData`, per the counterexample, suppresses range checking
whenever a missing-field or type error exists). -/
theorem c4_range_scoped_per_parameter (l₁ l₂ : List (String × JsValue))
    (p : String) (v : JsValue) (hv : v.isNum = false) :
    (∀ w ∈ validateSensorRanges l₁,
        w ∈ validateSensorRanges (l₁ ++ (p, v) :: l₂)) ∧
    (∀ w ∈ validateSensorRanges l₂,
        w ∈ validateSensorRanges (l₁ ++ (p, v) :: l₂)) := by
  constructor
  · intro w hw
    rw [validateSensorRanges, List.filterMap_append]
    exact List.mem_append_left _ hw
  · intro w hw
    rw [validateSensorRanges, List.filterMap_append]
    refine List.mem_append_right _ ?_
    rw [List.filterMap_cons]
    cases h : rangeCheckEntry p v with
    | none => exact hw
    | some u => exact List.mem_cons_of_mem _ hw

/-- C4 witness: with the malformed temperature in front, the heart-rate
range violation of the remaining entries is still reported. -/
theorem c4_range_scoped_per_parameter_witness :
    (JsValue.str "hot").isNum = false ∧
    Violation.mk "frecuencia_cardiaca" (.num 300) "Value outside acceptable range"
        (50, 250) ∈
      validateSensorRanges
        ([] ++ ("temperatura", JsValue.str "hot") ::
          [("frecuencia_cardiaca", JsValue.num 300)]) :=
  ⟨by decide,
   (c4_range_scoped_per_parameter [] [("frecuencia_cardiaca", JsValue.num 300)]
       "temperatura" (JsValue.str "hot") (by decide)).2
     (Violation.mk "frecuencia_cardiaca" (.num 300) "Value outside acceptable range"
       (50, 250)) (by decide)⟩

/-- C9: for every list and every chunk size `k > 0`, the chunks of
`chunkArray` concatenate back to the original list and every chunk except
possibly the last has exactly `k` elements. -/
theorem c9_chunkArray_spec {α : Type} (l : List α) (k : Nat) (hk : 0 < k) :
    (chunkArray l k).flatten = l ∧
    ∀ c ∈ (chunkArray l k).dropLast, c.length = k :=
  ⟨chunkArray_join_aux l.length l k le_rfl hk,
   chunkArray_dropLast_aux l.length l k le_rfl hk⟩

/-- C9 witness: chunking a five-element list with chunk size 2. -/
theorem c9_chunkArray_spec_witness :
    0 < 2 ∧
    ((chunkArray [1, 2, 3, 4, 5] 2).flatten = [1, 2, 3, 4, 5] ∧
     ∀ c ∈ (chunkArray [1, 2, 3, 4, 5] 2).dropLast, c.length = 2) :=
  ⟨by decide, c9_chunkArray_spec [1, 2, 3, 4, 5] 2 (by decide)⟩

/-- C10 counterexample: with the empty salt, `hashPassword` discards the
argument (the source's falsy `!salt` test) and hashes with a freshly
generated salt, so verifying against the same empty salt fails — here with
the pbkdf2 model instantiated to the salt projection and a generated
32-hex-character salt. -/
theorem c10_counterexample :
    verifyPassword (fun _ s => s) "pw"
      (hashPassword (fun _ s => s) "a3f1b2c4d5e6f708192a3b4c5d6e7f80" "pw"
        (some "")).hash "" = false := by
  decide

/-- C10 (amended): for every password and every non-empty salt, verifying
the password against the hash produced with that same salt succeeds, for
any deterministic pbkdf2 function and any generated salt. -/
theorem c10_verify_roundtrip (pbkdf2 : String → String → String)
    (genSalt password salt : String) (hsalt : salt ≠ "") :
    verifyPassword pbkdf2 password
      (hashPassword pbkdf2 genSalt password (some salt)).hash salt = true := by
  simp only [hashPassword, verifyPassword]
  rw [if_neg]
  · simp
  · rintro (h | h)
    · exact Option.noConfusion h
    · exact hsalt (Option.some.inj h)

/-- C10 witness: a concrete pbkdf2 model, password and salt. -/
theorem c10_verify_roundtrip_witness :
    "mysalt" ≠ "" ∧
    verifyPassword (fun p s => p ++ ":" ++ s) "pw"
      (hashPassword (fun p s => p ++ ":" ++ s) "gen" "pw" (some "mysalt")).hash
      "mysalt" = true :=
  ⟨by decide,
   c10_verify_roundtrip (fun p s => p ++ ":" ++ s) "gen" "pw" "mysalt" (by decide)⟩

/-- C2: `submit` keeps the active-alert count of any key at most 1, and a
second submit with the identical (incubator, patient, alert type) key
while the first resulting alert is still `activa` merges instead of
creating a duplicate — exactly one alert row for the key exists
afterwards. -/
theorem c2_submit_dedup :
    (∀ (ledger : List LedgerAlert) (n : Nat) (c : Candidate),
       countActiveKey c ledger ≤ 1 → countActiveKey c (submit ledger n c).1 ≤ 1) ∧
    (∀ (ledger : List LedgerAlert) (n : Nat) (c₁ c₂ : Candidate),
       c₁.incubadora = c₂.incubadora → c₁.paciente = c₂.paciente →
       c₁.tipo = c₂.tipo → countKey c₁ ledger = 0 →
       (submit (submit ledger n c₁).1 (submit ledger n c₁).2 c₂).1.length =
           (submit ledger n c₁).1.length ∧
       countKey c₁ (submit (submit ledger n c₁).1 (submit ledger n c₁).2 c₂).1 = 1 ∧
       countActiveKey c₁
           (submit (submit ledger n c₁).1 (submit ledger n c₁).2 c₂).1 = 1) := by
  constructor
  · intro l n c h
    by_cases hany : l.any (isActiveFor c) = true
    · rw [submit, if_pos hany]
      rw [countActiveKey] at h ⊢
      rw [filter_map_length (isActiveFor c) (mergeInto c) (isActiveFor_mergeInto c c)]
      exact h
    · rw [submit, if_neg hany]
      have hflt : l.filter (isActiveFor c) = [] := by
        rw [List.filter_eq_nil_iff]
        intro a ha hpa
        exact hany (List.any_eq_true.mpr ⟨a, ha, hpa⟩)
      rw [countActiveKey, List.filter_append, hflt]
      simp [List.filter_cons, isActiveFor_freshAlert]
  · intro l n c₁ c₂ hinc hpac htipo h0
    rw [countKey] at h0
    have hfl : l.filter (keyMatches c₁) = [] := List.length_eq_zero.mp h0
    have hactfl : l.filter (isActiveFor c₁) = [] := by
      rw [List.filter_eq_nil_iff]
      intro a ha hact
      have hkey : keyMatches c₁ a = true := by
        rw [isActiveFor] at hact
        exact (Bool.and_eq_true _ _ |>.mp hact).2
      exact (List.filter_eq_nil_iff.mp hfl a ha) hkey
    have hany1 : ¬ l.any (isActiveFor c₁) = true := by
      intro hc
      obtain ⟨a, ha, hpa⟩ := List.any_eq_true.mp hc
      exact (List.filter_eq_nil_iff.mp hactfl a ha) hpa
    have hsub1 : submit l n c₁ = (l ++ [freshAlert n c₁], n + 1) := by
      rw [submit, if_neg hany1]
    rw [hsub1]
    dsimp only
    have hcongr : isActiveFor c₁ = isActiveFor c₂ :=
      isActiveFor_congr c₁ c₂ hinc hpac htipo
    have hany2 : (l ++ [freshAlert n c₁]).any (isActiveFor c₂) = true := by
      refine List.any_eq_true.mpr ⟨freshAlert n c₁, by simp, ?_⟩
      rw [← hcongr]
      exact isActiveFor_freshAlert c₁ n
    have hsub2 : submit (l ++ [freshAlert n c₁]) (n + 1) c₂ =
        ((l ++ [freshAlert n c₁]).map (mergeInto c₂), n + 1) := by
      rw [submit, if_pos hany2]
    rw [hsub2]
    dsimp only
    refine ⟨List.length_map _ _, ?_, ?_⟩
    · rw [countKey,
        filter_map_length (keyMatches c₁) (mergeInto c₂) (keyMatches_mergeInto c₂ c₁),
        List.filter_append, hfl]
      simp [List.filter_cons, keyMatches_freshAlert]
    · rw [countActiveKey,
        filter_map_length (isActiveFor c₁) (mergeInto c₂) (isActiveFor_mergeInto c₂ c₁),
        List.filter_append, hactfl]
      simp [List.filter_cons, isActiveFor_freshAlert]

/-- C2 witness: submitting the same candidate twice to the empty ledger
leaves exactly one row for the key, still at most one active. -/
theorem c2_submit_dedup_witness :
    (countActiveKey sampleCandidate [] ≤ 1 ∧
     countActiveKey sampleCandidate (submit [] 0 sampleCandidate).1 ≤ 1) ∧
    (countKey sampleCandidate [] = 0 ∧
     ((submit (submit [] 0 sampleCandidate).1 (submit [] 0 sampleCandidate).2
          sampleCandidate).1.length = (submit [] 0 sampleCandidate).1.length ∧
      countKey sampleCandidate
          (submit (submit [] 0 sampleCandidate).1 (submit [] 0 sampleCandidate).2
            sampleCandidate).1 = 1 ∧
      countActiveKey sampleCandidate
          (submit (submit [] 0 sampleCandidate).1 (submit [] 0 sampleCandidate).2
            sampleCandidate).1 = 1)) :=
  ⟨⟨by decide, c2_submit_dedup.1 [] 0 sampleCandidate (by decide)⟩,
   ⟨by decide, c2_submit_dedup.2 [] 0 sampleCandidate sampleCandidate rfl rfl rfl
      (by decide)⟩⟩

/-- C3: the per-alert lifecycle admits exactly the transitions
`activa → reconocida`, `reconocida → resuelta` and `activa → resuelta`;
nothing leaves `resuelta`: acknowledge is legal only from `activa` (on a
`resuelta` alert it fails with `InvalidTransition`), and resolve is legal
from both `activa` and `reconocida`. -/
theorem c3_lifecycle_transitions :
    (∀ s : AlertState,
       ackState s = if s = .activa then some .reconocida else none) ∧
    (∀ s : AlertState,
       resolveState s = if s = .resuelta then none else some .resuelta) ∧
    (∀ (a : LedgerAlert) (l : List LedgerAlert) (user : String) (now : Nat),
       acknowledge ({ a with estado := .resuelta } :: l) a.id user now =
           .error .InvalidTransition ∧
       acknowledge ({ a with estado := .reconocida } :: l) a.id user now =
           .error .InvalidTransition ∧
       (acknowledge ({ a with estado := .activa } :: l) a.id user now).isOk = true) ∧
    (∀ (a : LedgerAlert) (l : List LedgerAlert) (now : Nat),
       (resolve ({ a with estado := .activa } :: l) a.id now).isOk = true ∧
       (resolve ({ a with estado := .reconocida } :: l) a.id now).isOk = true ∧
       resolve ({ a with estado := .resuelta } :: l) a.id now =
           .error .InvalidTransition) := by
  refine ⟨?_, ?_, ?_, ?_⟩
  · intro s; cases s <;> rfl
  · intro s; cases s <;> rfl
  · intro a l user now
    have h1 : List.find? (fun b => b.id == a.id)
        ({ a with estado := AlertState.resuelta } :: l) =
        some { a with estado := AlertState.resuelta } :=
      List.find?_cons_of_pos _ (by simp)
    have h2 : List.find? (fun b => b.id == a.id)
        ({ a with estado := AlertState.reconocida } :: l) =
        some { a with estado := AlertState.reconocida } :=
      List.find?_cons_of_pos _ (by simp)
    have h3 : List.find? (fun b => b.id == a.id)
        ({ a with estado := AlertState.activa } :: l) =
        some { a with estado := AlertState.activa } :=
      List.find?_cons_of_pos _ (by simp)
    refine ⟨?_, ?_, ?_⟩
    · rw [acknowledge, h1]; rfl
    · rw [acknowledge, h2]; rfl
    · rw [acknowledge, h3]; rfl
  · intro a l now
    have h1 : List.find? (fun b => b.id == a.id)
        ({ a with estado := AlertState.activa } :: l) =
        some { a with estado := AlertState.activa } :=
      List.find?_cons_of_pos _ (by simp)
    have h2 : List.find? (fun b => b.id == a.id)
        ({ a with estado := AlertState.reconocida } :: l) =
        some { a with estado := AlertState.reconocida } :=
      List.find?_cons_of_pos _ (by simp)
    have h3 : List.find? (fun b => b.id == a.id)
        ({ a with estado := AlertState.resuelta } :: l) =
        some { a with estado := AlertState.resuelta } :=
      List.find?_cons_of_pos _ (by simp)
    refine ⟨?_, ?_, ?_⟩
    · rw [resolve, h1]; rfl
    · rw [resolve, h2]; rfl
    · rw [resolve, h3]; rfl

end Incubadora
